import Mathlib

/-!
Verification development for the md2word DOCX builder
(`internal/docx` and the converter package).

The Go sources are shallowly embedded: Go strings become `String`
(text processing is done on the underlying `List Char`, matching Go's
rune-wise processing), Go `float64` style sizes become `Rat` with the
`int(x)` truncation modelled exactly for the values the program uses,
Go slices become `List`, and the mutation performed by `Table.ToXML`
on its cells' paragraphs is made explicit by returning the updated
table next to the produced markup.
-/

namespace MdToWord

/-- Go's `int(size * 2)` (float64 multiplication followed by
truncation toward zero), computed directly on the rational model: for
`q = num/den` this is the truncated quotient of `2*num` by `den`. -/
def sizeHalf (q : Rat) : Int :=
  (2 * q.num).tdiv (q.den : Int)

/-- One character of Go's `xml.EscapeText` (used by `XMLEscape` in
`internal/docx/styles.go`): the eight escaped characters each become an
entity, characters outside the XML character range become U+FFFD, and
every other character is passed through. -/
def escChar (c : Char) : List Char :=
  if c = Char.ofNat 34 then "&#34;".data
  else if c = Char.ofNat 39 then "&#39;".data
  else if c = '&' then "&amp;".data
  else if c = '<' then "&lt;".data
  else if c = '>' then "&gt;".data
  else if c = '\t' then "&#x9;".data
  else if c = '\n' then "&#xA;".data
  else if c = '\r' then "&#xD;".data
  else if c.toNat < 32 ∨ (55296 ≤ c.toNat ∧ c.toNat ≤ 57343) ∨ 65534 ≤ c.toNat then
    [Char.ofNat 65533]
  else [c]

/-- Embeds `XMLEscape` from `internal/docx/styles.go`: escape every character. -/
def xmlEscape (s : List Char) : List Char :=
  (s.map escChar).flatten

/-- Embeds `strings.Split(s, "\n")` as used by `Run.ToXML`. -/
def splitNL : List Char → List (List Char)
  | [] => [[]]
  | c :: t =>
    if c = '\n' then [] :: splitNL t
    else
      match splitNL t with
      | [] => [[c]]
      | l :: ls => (c :: l) :: ls

/-- Embeds `strings.Contains(line, "  ")`: two consecutive spaces occur. -/
def hasDoubleSpace : List Char → Bool
  | [] => false
  | c :: t => (decide (c = ' ') && decide (t.head? = some ' ')) || hasDoubleSpace t

/-- The whitespace condition of `Run.ToXML`:
`strings.HasPrefix(line, " ") || strings.HasSuffix(line, " ") ||
strings.Contains(line, "  ")`. -/
def spacePreserveCond (l : List Char) : Bool :=
  decide (l.head? = some ' ') || decide (l.getLast? = some ' ') || hasDoubleSpace l

/-- Embeds `Run` from `internal/docx/paragraph.go`. -/
structure Run where
  Text : String
  Bold : Bool
  Italic : Bool
  Underline : Bool
  Strike : Bool
  FontName : String
  FontSize : Rat
  Color : String
  Highlight : String
  IsCode : Bool
  IsImage : Bool
  ImageRelID : String
  ImageWidth : Int
  ImageHeight : Int
deriving Repr, DecidableEq

/-- The zero `Run`, as produced by `&Run{}` in Go. -/
def emptyRun : Run :=
  { Text := "", Bold := false, Italic := false, Underline := false,
    Strike := false, FontName := "", FontSize := 0, Color := "",
    Highlight := "", IsCode := false, IsImage := false, ImageRelID := "",
    ImageWidth := 0, ImageHeight := 0 }

/-- Embeds `strings.TrimPrefix(s, "#")`. -/
def trimHash (s : String) : String :=
  match s.data with
  | c :: t => if c = '#' then String.mk t else s
  | [] => s

/-- The run-properties block of `Run.ToXML` (the `w:rPr` section). -/
def runPropsXML (r : Run) : String :=
  if r.Bold = true ∨ r.Italic = true ∨ r.Underline = true ∨ r.Strike = true
      ∨ r.FontName ≠ "" ∨ 0 < r.FontSize ∨ r.Color ≠ "" ∨ r.IsCode = true then
    "\n                <w:rPr>"
    ++ (if r.FontName ≠ "" then
          "\n                    <w:rFonts w:ascii=\"" ++ r.FontName
          ++ "\" w:eastAsia=\"" ++ r.FontName ++ "\" w:hAnsi=\"" ++ r.FontName ++ "\"/>"
        else "")
    ++ (if 0 < r.FontSize then
          "\n                    <w:sz w:val=\"" ++ toString (sizeHalf r.FontSize)
          ++ "\"/>\n                    <w:szCs w:val=\"" ++ toString (sizeHalf r.FontSize) ++ "\"/>"
        else "")
    ++ (if r.Bold then "\n                    <w:b/>" else "")
    ++ (if r.Italic then "\n                    <w:i/>" else "")
    ++ (if r.Underline then "\n                    <w:u w:val=\"single\"/>" else "")
    ++ (if r.Strike then "\n                    <w:strike/>" else "")
    ++ (if r.Color ≠ "" then
          "\n                    <w:color w:val=\"" ++ trimHash r.Color ++ "\"/>"
        else "")
    ++ (if r.IsCode then
          "\n                    <w:rFonts w:ascii=\"Consolas\" w:hAnsi=\"Consolas\"/>\n                    <w:shd w:val=\"clear\" w:color=\"auto\" w:fill=\"E8E8E8\"/>"
        else "")
    ++ "\n                </w:rPr>"
  else ""

/-- One emitted text element of `Run.ToXML`: the preserve-whitespace
marker is attached exactly when `spacePreserveCond` holds of the line. -/
def renderTextLine (l : List Char) : String :=
  if spacePreserveCond l then
    "\n                <w:t xml:space=\"preserve\">" ++ String.mk l ++ "</w:t>"
  else
    "\n                <w:t>" ++ String.mk l ++ "</w:t>"

/-- The text loop of `Run.ToXML`: every line after the first is
preceded by an explicit line-break marker. -/
def renderLines : List (List Char) → String
  | [] => ""
  | l :: ls =>
    renderTextLine l
    ++ String.join (ls.map (fun l2 => "\n                <w:br/>" ++ renderTextLine l2))

/-- The embedded-drawing object emitted for image runs by `Run.ToXML`. -/
def imageDrawingXML (r : Run) : String :=
  "\n                <w:drawing>\n                    <wp:inline distT=\"0\" distB=\"0\" distL=\"0\" distR=\"0\">\n                        <wp:extent cx=\""
  ++ toString r.ImageWidth ++ "\" cy=\"" ++ toString r.ImageHeight
  ++ "\"/>\n                        <wp:effectExtent l=\"0\" t=\"0\" r=\"0\" b=\"0\"/>\n                        <wp:docPr id=\"1\" name=\"Picture\"/>\n                        <wp:cNvGraphicFramePr>\n                            <a:graphicFrameLocks xmlns:a=\"http://schemas.openxmlformats.org/drawingml/2006/main\" noChangeAspect=\"1\"/>\n                        </wp:cNvGraphicFramePr>\n                        <a:graphic xmlns:a=\"http://schemas.openxmlformats.org/drawingml/2006/main\">\n                            <a:graphicData uri=\"http://schemas.openxmlformats.org/drawingml/2006/picture\">\n                                <pic:pic xmlns:pic=\"http://schemas.openxmlformats.org/drawingml/2006/picture\">\n                                    <pic:nvPicPr>\n                                        <pic:cNvPr id=\"0\" name=\"Picture\"/>\n                                        <pic:cNvPicPr/>\n                                    </pic:nvPicPr>\n                                    <pic:blipFill>\n                                        <a:blip r:embed=\""
  ++ r.ImageRelID
  ++ "\"/>\n                                        <a:stretch>\n                                            <a:fillRect/>\n                                        </a:stretch>\n                                    </pic:blipFill>\n                                    <pic:spPr>\n                                        <a:xfrm>\n                                            <a:off x=\"0\" y=\"0\"/>\n                                            <a:ext cx=\""
  ++ toString r.ImageWidth ++ "\" cy=\"" ++ toString r.ImageHeight
  ++ "\"/>\n                                        </a:xfrm>\n                                        <a:prstGeom prst=\"rect\">\n                                            <a:avLst/>\n                                        </a:prstGeom>\n                                    </pic:spPr>\n                                </pic:pic>\n                            </a:graphicData>\n                        </a:graphic>\n                    </wp:inline>\n                </w:drawing>"

/-- The content section of `Run.ToXML`: an embedded drawing for image
runs, otherwise the escaped text split on newlines (the escaping is
applied first, exactly as in the source). -/
def runContentXML (r : Run) : String :=
  if r.IsImage then imageDrawingXML r
  else if r.Text ≠ "" then renderLines (splitNL (xmlEscape r.Text.data))
  else ""

/-- Embeds `Run.ToXML` from `internal/docx/paragraph.go`. -/
def runToXML (r : Run) : String :=
  "\n            <w:r>" ++ runPropsXML r ++ runContentXML r ++ "\n            </w:r>"

/-- Embeds `Hyperlink` from `internal/docx/paragraph.go`. -/
structure Hyperlink where
  ID : String
  Runs : List Run
deriving Repr, DecidableEq

/-- Embeds `Hyperlink.ToXML`. -/
def hyperlinkToXML (h : Hyperlink) : String :=
  "<w:hyperlink r:id=\"" ++ h.ID ++ "\">"
  ++ String.join (h.Runs.map runToXML) ++ "</w:hyperlink>"

/-- A paragraph child is a run or a hyperlink (`ParagraphChild`). -/
inductive ParagraphChild where
  | run (r : Run)
  | link (h : Hyperlink)
deriving Repr, DecidableEq

def paragraphChildToXML : ParagraphChild → String
  | .run r => runToXML r
  | .link h => hyperlinkToXML h

/-- Embeds `Paragraph` from `internal/docx/paragraph.go`. -/
structure Paragraph where
  StyleID : String
  Children : List ParagraphChild
  Align : String
  Indent : Int
  SpacingB : Int
  SpacingA : Int
  Shading : String
  Border : Bool
  HorizontalRule : Bool
  LineHeight : Int
  FirstLineIndent : Int
deriving Repr, DecidableEq

/-- Embeds `NewParagraph(styleID)`. -/
def newParagraph (styleID : String) : Paragraph :=
  { StyleID := styleID, Children := [], Align := "", Indent := 0,
    SpacingB := 0, SpacingA := 0, Shading := "", Border := false,
    HorizontalRule := false, LineHeight := 0, FirstLineIndent := 0 }

/-- The paragraph-properties block of `Paragraph.ToXML`. -/
def paragraphPropsXML (p : Paragraph) : String :=
  if p.StyleID ≠ "" ∨ p.Align ≠ "" ∨ 0 < p.Indent ∨ 0 < p.SpacingB
      ∨ 0 < p.SpacingA ∨ p.Shading ≠ "" ∨ p.Border = true
      ∨ p.HorizontalRule = true ∨ 0 < p.LineHeight ∨ 0 < p.FirstLineIndent then
    "\n            <w:pPr>"
    ++ (if p.StyleID ≠ "" then
          "\n                <w:pStyle w:val=\"" ++ p.StyleID ++ "\"/>"
        else "")
    ++ (if p.Align ≠ "" then
          "\n                <w:jc w:val=\""
          ++ (if p.Align = "left" then "start"
              else if p.Align = "right" then "end" else p.Align)
          ++ "\"/>"
        else "")
    ++ (if 0 < p.Indent ∨ 0 < p.FirstLineIndent then
          "\n                <w:ind w:left=\"" ++ toString p.Indent
          ++ "\" w:firstLine=\"" ++ toString p.FirstLineIndent ++ "\"/>"
        else "")
    ++ (if 0 < p.SpacingB ∨ 0 < p.SpacingA ∨ 0 < p.LineHeight then
          "\n                <w:spacing w:before=\"" ++ toString p.SpacingA
          ++ "\" w:after=\"" ++ toString p.SpacingB
          ++ "\" w:line=\"" ++ toString (if 0 < p.LineHeight then p.LineHeight else 360)
          ++ "\" w:lineRule=\"auto\"/>"
        else "")
    ++ (if p.Shading ≠ "" then
          "\n                <w:shd w:val=\"clear\" w:color=\"auto\" w:fill=\""
          ++ trimHash p.Shading ++ "\"/>"
        else "")
    ++ (if p.HorizontalRule then
          "\n                <w:pBdr>\n                    <w:bottom w:val=\"single\" w:sz=\"6\" w:space=\"1\" w:color=\"A0A0A0\"/>\n                </w:pBdr>"
        else "")
    ++ (if p.Border then
          "\n                <w:pBdr>\n                    <w:top w:val=\"single\" w:sz=\"4\" w:space=\"1\" w:color=\"C0C0C0\"/>\n                    <w:left w:val=\"single\" w:sz=\"4\" w:space=\"4\" w:color=\"C0C0C0\"/>\n                    <w:bottom w:val=\"single\" w:sz=\"4\" w:space=\"1\" w:color=\"C0C0C0\"/>\n                    <w:right w:val=\"single\" w:sz=\"4\" w:space=\"4\" w:color=\"C0C0C0\"/>\n                </w:pBdr>"
        else "")
    ++ "\n            </w:pPr>"
  else ""

/-- Embeds `Paragraph.ToXML`. -/
def paragraphToXML (p : Paragraph) : String :=
  "\n        <w:p>" ++ paragraphPropsXML p
  ++ String.join (p.Children.map paragraphChildToXML)
  ++ "\n        </w:p>"

/-- Embeds `TableCell` from the table source file. -/
structure TableCell where
  Paragraphs : List Paragraph
  Width : Int
  Align : String
  VAlign : String
  Shading : String
deriving Repr, DecidableEq

/-- Embeds `TableRow`. -/
structure TableRow where
  Cells : List TableCell
  IsHeader : Bool
deriving Repr, DecidableEq

/-- Embeds `Table`. -/
structure Table where
  Rows : List TableRow
  ColWidths : List Int
  HasBorders : Bool
deriving Repr, DecidableEq

/-- Embeds `TableRow.AddCell` produces this fresh cell. -/
def newTableCell : TableCell :=
  { Paragraphs := [], Width := 0, Align := "", VAlign := "", Shading := "" }

/-- Embeds `TableCell.AddParagraph`: the attach operation appends the paragraph
unchanged; it performs no alignment defaulting. -/
def TableCell.addParagraph (c : TableCell) (p : Paragraph) : TableCell :=
  { c with Paragraphs := c.Paragraphs ++ [p] }

/-- The per-paragraph alignment defaulting performed inside `Table.ToXML`:
`if cell.Align != "" && p.Align == "" { p.Align = cell.Align }`. -/
def resolveCellAlign (a : String) (p : Paragraph) : Paragraph :=
  if a ≠ "" ∧ p.Align = "" then { p with Align := a } else p

/-- The cell-paragraph loop of `Table.ToXML`: each paragraph is first
destructively defaulted, then rendered; the mutated paragraphs are
returned alongside the markup. -/
def renderCellParas (a : String) : List Paragraph → String × List Paragraph
  | [] => ("", [])
  | p :: ps =>
    let p2 := resolveCellAlign a p
    let rest := renderCellParas a ps
    (paragraphToXML p2 ++ rest.1, p2 :: rest.2)

/-- The cell-properties block (`w:tcPr`) of `Table.ToXML`. -/
def cellPropsXML (c : TableCell) : String :=
  "\n                <w:tc>\n                    <w:tcPr>"
  ++ (if 0 < c.Width then
        "\n                        <w:tcW w:w=\"" ++ toString c.Width ++ "\" w:type=\"dxa\"/>"
      else "")
  ++ (if c.Shading ≠ "" then
        "\n                        <w:shd w:val=\"clear\" w:color=\"auto\" w:fill=\"" ++ c.Shading ++ "\"/>"
      else "")
  ++ (if c.VAlign ≠ "" then
        "\n                        <w:vAlign w:val=\"" ++ c.VAlign ++ "\"/>"
      else "")
  ++ "\n                    </w:tcPr>"

/-- The cell branch of `Table.ToXML`: a cell without paragraphs emits
one empty paragraph placeholder; otherwise its paragraphs are rendered
(with render-time alignment defaulting). -/
def cellToXML (c : TableCell) : String × TableCell :=
  if c.Paragraphs = [] then
    (cellPropsXML c ++ "\n                    <w:p/>" ++ "\n                </w:tc>", c)
  else
    let rest := renderCellParas c.Align c.Paragraphs
    (cellPropsXML c ++ rest.1 ++ "\n                </w:tc>",
     { c with Paragraphs := rest.2 })

def renderCellList : List TableCell → String × List TableCell
  | [] => ("", [])
  | c :: cs =>
    let rc := cellToXML c
    let rest := renderCellList cs
    (rc.1 ++ rest.1, rc.2 :: rest.2)

/-- One row of `Table.ToXML`. -/
def rowToXML (r : TableRow) : String × TableRow :=
  let rc := renderCellList r.Cells
  ("\n            <w:tr>"
   ++ (if r.IsHeader then
         "\n                <w:trPr>\n                    <w:tblHeader/>\n                </w:trPr>"
       else "")
   ++ rc.1 ++ "\n            </w:tr>",
   { r with Cells := rc.2 })

def renderRowList : List TableRow → String × List TableRow
  | [] => ("", [])
  | r :: rs =>
    let rr := rowToXML r
    let rest := renderRowList rs
    (rr.1 ++ rest.1, rr.2 :: rest.2)

/-- The fixed table-properties head of `Table.ToXML`, with the optional
border block. -/
def tablePropsXML (t : Table) : String :=
  "\n        <w:tbl>\n            <w:tblPr>\n                <w:tblStyle w:val=\"TableGrid\"/>\n                <w:tblW w:w=\"0\" w:type=\"auto\"/>\n                <w:tblLook w:val=\"04A0\" w:firstRow=\"1\" w:lastRow=\"0\" w:firstColumn=\"1\" w:lastColumn=\"0\" w:noHBand=\"0\" w:noVBand=\"1\"/>"
  ++ (if t.HasBorders then
        "\n                <w:tblBorders>\n                    <w:top w:val=\"single\" w:sz=\"4\" w:space=\"0\" w:color=\"auto\"/>\n                    <w:left w:val=\"single\" w:sz=\"4\" w:space=\"0\" w:color=\"auto\"/>\n                    <w:bottom w:val=\"single\" w:sz=\"4\" w:space=\"0\" w:color=\"auto\"/>\n                    <w:right w:val=\"single\" w:sz=\"4\" w:space=\"0\" w:color=\"auto\"/>\n                    <w:insideH w:val=\"single\" w:sz=\"4\" w:space=\"0\" w:color=\"auto\"/>\n                    <w:insideV w:val=\"single\" w:sz=\"4\" w:space=\"0\" w:color=\"auto\"/>\n                </w:tblBorders>"
      else "")
  ++ "\n            </w:tblPr>"
  ++ (if t.ColWidths ≠ [] then
        "\n            <w:tblGrid>"
        ++ String.join (t.ColWidths.map (fun w =>
             "\n                <w:gridCol w:w=\"" ++ toString w ++ "\"/>"))
        ++ "\n            </w:tblGrid>"
      else "")

/-- Embeds `Table.ToXML`: returns the markup and the table as it stands after
rendering (its paragraphs have been mutated by the alignment
defaulting). -/
def tableToXML (t : Table) : String × Table :=
  let rr := renderRowList t.Rows
  (tablePropsXML t ++ rr.1 ++ "\n        </w:tbl>", { t with Rows := rr.2 })

/-- Embeds `StyleConfig` from `internal/config/config.go` (`float64` sizes are
modelled as `Rat`). -/
structure StyleConfig where
  Font : String
  Size : Rat
  Bold : Bool
  Italic : Bool
  Color : String
  Background : String
  LineSpacing : Int
  LineHeight : Int
  SpaceBefore : Int
  SpaceAfter : Int
  FirstLineIndent : Int
deriving Repr, DecidableEq

/-- The zero `StyleConfig` (an unset YAML section). -/
def emptyStyleConfig : StyleConfig :=
  { Font := "", Size := 0, Bold := false, Italic := false, Color := "",
    Background := "", LineSpacing := 0, LineHeight := 0, SpaceBefore := 0,
    SpaceAfter := 0, FirstLineIndent := 0 }

/-- The `Styles` section of `Config`. -/
structure StylesSection where
  Body : StyleConfig
  Heading1 : StyleConfig
  Heading2 : StyleConfig
  Heading3 : StyleConfig
  Heading4 : StyleConfig
  Heading5 : StyleConfig
  Heading6 : StyleConfig
  Heading7 : StyleConfig
  Heading8 : StyleConfig
  Heading9 : StyleConfig
  Code : StyleConfig
  CodeBlock : StyleConfig
deriving Repr, DecidableEq

/-- Embeds `Config` (restricted to the `Styles` section, the only part the
embedded document builder reads). -/
structure Config where
  Styles : StylesSection
deriving Repr, DecidableEq

/-- Embeds `Config.GetHeadingStyle` from `internal/config/config.go`: the
per-level style for levels 1–9, the body style for any other level. -/
def Config.getHeadingStyle (c : Config) (level : Int) : StyleConfig :=
  if level = 1 then c.Styles.Heading1
  else if level = 2 then c.Styles.Heading2
  else if level = 3 then c.Styles.Heading3
  else if level = 4 then c.Styles.Heading4
  else if level = 5 then c.Styles.Heading5
  else if level = 6 then c.Styles.Heading6
  else if level = 7 then c.Styles.Heading7
  else if level = 8 then c.Styles.Heading8
  else if level = 9 then c.Styles.Heading9
  else c.Styles.Body

/-- The fixed opening of one heading `w:style` block (everything the
loop body of `GenerateStyles` writes before the outline level). -/
def headingStyleHeadXML (level : Int) : String :=
  "\n    <w:style w:type=\"paragraph\" w:styleId=\"Heading" ++ toString level
  ++ "\">\n        <w:name w:val=\"heading " ++ toString level
  ++ "\"/>\n        <w:basedOn w:val=\"Normal\"/>\n        <w:next w:val=\"Normal\"/>\n        <w:pPr>\n            <w:keepNext/>\n            <w:keepLines/>\n            <w:spacing w:before=\"240\" w:after=\"120\"/>\n            "

/-- The outline-level element: index `level - 1`. -/
def headingOutlineXML (level : Int) : String :=
  "<w:outlineLvl w:val=\"" ++ toString (level - 1) ++ "\"/>"

/-- The run-fonts element of a heading style. -/
def headingFontsXML (style : StyleConfig) : String :=
  "<w:rFonts w:ascii=\"" ++ style.Font ++ "\" w:eastAsia=\"" ++ style.Font
  ++ "\" w:hAnsi=\"" ++ style.Font ++ "\"/>"

/-- The font-size element of a heading style (half-points). -/
def headingSzXML (style : StyleConfig) : String :=
  "<w:sz w:val=\"" ++ toString (sizeHalf style.Size) ++ "\"/>"

/-- The optional bold markers of a heading style. -/
def headingBoldXML (style : StyleConfig) : String :=
  if style.Bold then "\n            <w:b/>\n            <w:bCs/>" else ""

/-- One heading `w:style` block of `GenerateStyles` (the body of its
`for level := 1; level <= 9` loop). -/
def headingStyleXML (level : Int) (style : StyleConfig) : String :=
  headingStyleHeadXML level ++ headingOutlineXML level
  ++ "\n        </w:pPr>\n        <w:rPr>\n            "
  ++ headingFontsXML style ++ "\n            " ++ headingSzXML style
  ++ "\n            <w:szCs w:val=\"" ++ toString (sizeHalf style.Size) ++ "\"/>"
  ++ headingBoldXML style
  ++ "\n        </w:rPr>\n    </w:style>"

/-- The `docDefaults` and `Normal` sections of `GenerateStyles`. -/
def stylesHeadXML (cfg : Config) : String :=
  "<?xml version=\"1.0\" encoding=\"UTF-8\" standalone=\"yes\"?>\n<w:styles xmlns:w=\"http://schemas.openxmlformats.org/wordprocessingml/2006/main\">\n    <w:docDefaults>\n        <w:rPrDefault>\n            <w:rPr>\n                <w:rFonts w:ascii=\""
  ++ cfg.Styles.Body.Font ++ "\" w:eastAsia=\"" ++ cfg.Styles.Body.Font
  ++ "\" w:hAnsi=\"" ++ cfg.Styles.Body.Font
  ++ "\"/>\n                <w:sz w:val=\"" ++ toString (sizeHalf cfg.Styles.Body.Size)
  ++ "\"/>\n                <w:szCs w:val=\"" ++ toString (sizeHalf cfg.Styles.Body.Size)
  ++ "\"/>\n            </w:rPr>\n        </w:rPrDefault>\n        <w:pPrDefault>\n            <w:pPr>\n                <w:spacing w:after=\"0\" w:line=\"276\" w:lineRule=\"auto\"/>\n            </w:pPr>\n        </w:pPrDefault>\n    </w:docDefaults>\n    <w:style w:type=\"paragraph\" w:default=\"1\" w:styleId=\"Normal\">\n        <w:name w:val=\"Normal\"/>\n        <w:rPr>\n            <w:rFonts w:ascii=\""
  ++ cfg.Styles.Body.Font ++ "\" w:eastAsia=\"" ++ cfg.Styles.Body.Font
  ++ "\" w:hAnsi=\"" ++ cfg.Styles.Body.Font
  ++ "\"/>\n            <w:sz w:val=\"" ++ toString (sizeHalf cfg.Styles.Body.Size)
  ++ "\"/>\n            <w:szCs w:val=\"" ++ toString (sizeHalf cfg.Styles.Body.Size)
  ++ "\"/>\n        </w:rPr>\n    </w:style>"

/-- The `Code` and `TableGrid` styles and the closing tag of
`GenerateStyles`. -/
def stylesTailXML (cfg : Config) : String :=
  "\n    <w:style w:type=\"paragraph\" w:styleId=\"Code\">\n        <w:name w:val=\"Code\"/>\n        <w:basedOn w:val=\"Normal\"/>\n        <w:pPr>\n            <w:shd w:val=\"clear\" w:color=\"auto\" w:fill=\"F5F5F5\"/>\n            <w:spacing w:before=\"120\" w:after=\"120\"/>\n        </w:pPr>\n        <w:rPr>\n            <w:rFonts w:ascii=\"Consolas\" w:hAnsi=\"Consolas\" w:cs=\"Consolas\"/>\n            <w:sz w:val=\""
  ++ toString (sizeHalf cfg.Styles.Code.Size)
  ++ "\"/>\n            <w:szCs w:val=\"" ++ toString (sizeHalf cfg.Styles.Code.Size)
  ++ "\"/>\n        </w:rPr>\n    </w:style>\n    <w:style w:type=\"table\" w:styleId=\"TableGrid\">\n        <w:name w:val=\"Table Grid\"/>\n        <w:basedOn w:val=\"TableNormal\"/>\n        <w:tblPr>\n            <w:tblBorders>\n                <w:top w:val=\"single\" w:sz=\"4\" w:space=\"0\" w:color=\"auto\"/>\n                <w:left w:val=\"single\" w:sz=\"4\" w:space=\"0\" w:color=\"auto\"/>\n                <w:bottom w:val=\"single\" w:sz=\"4\" w:space=\"0\" w:color=\"auto\"/>\n                <w:right w:val=\"single\" w:sz=\"4\" w:space=\"0\" w:color=\"auto\"/>\n                <w:insideH w:val=\"single\" w:sz=\"4\" w:space=\"0\" w:color=\"auto\"/>\n                <w:insideV w:val=\"single\" w:sz=\"4\" w:space=\"0\" w:color=\"auto\"/>\n            </w:tblBorders>\n        </w:tblPr>\n    </w:style>\n</w:styles>"

/-- The heading levels visited by the generator's loop. -/
def headingLevels : List Int := [1, 2, 3, 4, 5, 6, 7, 8, 9]

/-- Embeds `GenerateStyles` from `internal/docx/styles.go`. -/
def generateStyles (cfg : Config) : String :=
  stylesHeadXML cfg
  ++ String.join (headingLevels.map (fun l => headingStyleXML l (cfg.getHeadingStyle l)))
  ++ stylesTailXML cfg

/-- The nine heading-style blocks emitted by the generator's loop, in
loop order. -/
def headingBlocks (cfg : Config) : List String :=
  headingLevels.map (fun l => headingStyleXML l (cfg.getHeadingStyle l))

/-- Embeds `ImageData` (raw bytes modelled as an opaque string). -/
structure ImageData where
  Data : String
  ContentType : String
  Width : Int
  Height : Int
deriving Repr, DecidableEq

/-- Embeds `Relationship` (the Go field `Type` is called `Typ` here). -/
structure Relationship where
  ID : String
  Typ : String
  Target : String
  TargetMode : String
deriving Repr, DecidableEq

/-- A document element: paragraph or table (`Element` interface). -/
inductive Element where
  | para (p : Paragraph)
  | table (t : Table)
deriving Repr, DecidableEq

/-- Embeds `Element.ToXML` as used by `writeDocument` (the markup component of
the rendering; a table's cell mutation does not change its markup). -/
def elementToXML : Element → String
  | .para p => paragraphToXML p
  | .table t => (tableToXML t).1

/-- Embeds `Document` from `internal/docx/styles.go`. The Go `images` map is
keyed by generated filenames that are unique per call, so it is
modelled as the association list in insertion order. -/
structure Document where
  config : Config
  elements : List Element
  images : List (String × ImageData)
  imageCount : Nat
  rels : List Relationship
  contentRels : List Relationship
deriving Repr, DecidableEq

/-- Embeds `NewDocument`. -/
def newDocument (cfg : Config) : Document :=
  { config := cfg, elements := [], images := [], imageCount := 0,
    rels := [], contentRels := [] }

/-- Embeds `Document.AddParagraph` (appends any element). -/
def Document.addParagraph (d : Document) (e : Element) : Document :=
  { d with elements := d.elements ++ [e] }

/-- The extension switch of `Document.AddImage` (default `.png`). -/
def imageExt (contentType : String) : String :=
  if contentType = "image/jpeg" then ".jpg"
  else if contentType = "image/gif" then ".gif"
  else if contentType = "image/svg+xml" then ".svg"
  else ".png"

/-- Embeds `Document.AddImage`: increments the shared counter, allocates
`rId(count+10)`, stores the image under `image<count><ext>` and appends
an image relationship; returns the relationship ID and the new state. -/
def Document.addImage (d : Document) (data contentType : String)
    (width height : Int) : String × Document :=
  let count := d.imageCount + 1
  let rID := "rId" ++ toString (count + 10)
  let imgName := "image" ++ toString count
  let ext := imageExt contentType
  (rID,
   { d with
     imageCount := count,
     images := d.images ++ [(imgName ++ ext,
       { Data := data, ContentType := contentType, Width := width, Height := height })],
     contentRels := d.contentRels ++ [{
       ID := rID,
       Typ := "http://schemas.openxmlformats.org/officeDocument/2006/relationships/image",
       Target := "media/" ++ imgName ++ ext,
       TargetMode := "" }] })

/-- Embeds `Document.AddHyperlink`: increments the same counter (`d.imageCount`)
and allocates `rId(count+1000)`; appends an external-mode relationship. -/
def Document.addHyperlink (d : Document) (target : String) : String × Document :=
  let count := d.imageCount + 1
  let rID := "rId" ++ toString (count + 1000)
  (rID,
   { d with
     imageCount := count,
     contentRels := d.contentRels ++ [{
       ID := rID,
       Typ := "http://schemas.openxmlformats.org/officeDocument/2006/relationships/hyperlink",
       Target := target,
       TargetMode := "External" }] })

/-- The fixed `[Content_Types].xml` part written by `writeContentTypes`. -/
def contentTypesXML : String :=
  "<?xml version=\"1.0\" encoding=\"UTF-8\" standalone=\"yes\"?>\n<Types xmlns=\"http://schemas.openxmlformats.org/package/2006/content-types\">\n    <Default Extension=\"rels\" ContentType=\"application/vnd.openxmlformats-package.relationships+xml\"/>\n    <Default Extension=\"xml\" ContentType=\"application/xml\"/>\n    <Default Extension=\"png\" ContentType=\"image/png\"/>\n    <Default Extension=\"jpg\" ContentType=\"image/jpeg\"/>\n    <Default Extension=\"jpeg\" ContentType=\"image/jpeg\"/>\n    <Default Extension=\"gif\" ContentType=\"image/gif\"/>\n    <Override PartName=\"/word/document.xml\" ContentType=\"application/vnd.openxmlformats-officedocument.wordprocessingml.document.main+xml\"/>\n    <Override PartName=\"/word/styles.xml\" ContentType=\"application/vnd.openxmlformats-officedocument.wordprocessingml.styles+xml\"/>\n</Types>"

/-- The fixed `_rels/.rels` part written by `writeRels`. -/
def rootRelsXML : String :=
  "<?xml version=\"1.0\" encoding=\"UTF-8\" standalone=\"yes\"?>\n<Relationships xmlns=\"http://schemas.openxmlformats.org/package/2006/relationships\">\n    <Relationship Id=\"rId1\" Type=\"http://schemas.openxmlformats.org/officeDocument/2006/relationships/officeDocument\" Target=\"word/document.xml\"/>\n</Relationships>"

/-- One content relationship line of `writeDocumentRels`. -/
def relationshipXML (r : Relationship) : String :=
  if r.TargetMode ≠ "" then
    "\n    <Relationship Id=\"" ++ r.ID ++ "\" Type=\"" ++ r.Typ
    ++ "\" Target=\"" ++ r.Target ++ "\" TargetMode=\"" ++ r.TargetMode ++ "\"/>"
  else
    "\n    <Relationship Id=\"" ++ r.ID ++ "\" Type=\"" ++ r.Typ
    ++ "\" Target=\"" ++ r.Target ++ "\"/>"

/-- The fixed head of `word/_rels/document.xml.rels` (style-sheet
relationship included). -/
def documentRelsHead : String :=
  "<?xml version=\"1.0\" encoding=\"UTF-8\" standalone=\"yes\"?>\n<Relationships xmlns=\"http://schemas.openxmlformats.org/package/2006/relationships\">\n    <Relationship Id=\"rId1\" Type=\"http://schemas.openxmlformats.org/officeDocument/2006/relationships/styles\" Target=\"styles.xml\"/>"

/-- Embeds `writeDocumentRels`: the style relationship followed by every
registered content relationship in insertion order. -/
def documentRelsXML (d : Document) : String :=
  documentRelsHead
  ++ String.join (d.contentRels.map relationshipXML)
  ++ "\n</Relationships>"

/-- The fixed head of `word/document.xml` written by `writeDocument`. -/
def documentBodyHead : String :=
  "<?xml version=\"1.0\" encoding=\"UTF-8\" standalone=\"yes\"?>\n<w:document xmlns:w=\"http://schemas.openxmlformats.org/wordprocessingml/2006/main\"\n            xmlns:wp=\"http://schemas.openxmlformats.org/drawingml/2006/wordprocessingDrawing\"\n            xmlns:a=\"http://schemas.openxmlformats.org/drawingml/2006/main\"\n            xmlns:pic=\"http://schemas.openxmlformats.org/drawingml/2006/picture\"\n            xmlns:r=\"http://schemas.openxmlformats.org/officeDocument/2006/relationships\">\n    <w:body>"

/-- The fixed page-geometry trailer of `writeDocument`. -/
def documentBodyTrailer : String :=
  "\n        <w:sectPr>\n            <w:pgSz w:w=\"11906\" w:h=\"16838\"/>\n            <w:pgMar w:top=\"1440\" w:right=\"1800\" w:bottom=\"1440\" w:left=\"1800\" w:header=\"851\" w:footer=\"992\" w:gutter=\"0\"/>\n        </w:sectPr>\n    </w:body>\n</w:document>"

/-- Embeds `writeDocument`: every element rendered in insertion order between
the fixed head and trailer. -/
def documentXML (d : Document) : String :=
  documentBodyHead
  ++ String.join (d.elements.map elementToXML)
  ++ documentBodyTrailer

/-- Embeds `Document.Save`: the archive as the ordered list of written entries
(entry name, entry bytes). The Go source iterates its image map with
unspecified order; the model fixes insertion order, which the claims do
not depend on. -/
def Document.save (d : Document) : List (String × String) :=
  [("[Content_Types].xml", contentTypesXML),
   ("_rels/.rels", rootRelsXML),
   ("word/_rels/document.xml.rels", documentRelsXML d),
   ("word/styles.xml", generateStyles d.config),
   ("word/document.xml", documentXML d)]
  ++ d.images.map (fun nd => ("word/media/" ++ nd.1, nd.2.Data))

/-- The hyperlink finalization pass of `Converter.processInlineNode`
(the loop after all children of an `ast.Link` have been processed):
runs without an explicit color get the fixed link blue, and every run
is underlined. -/
def applyHyperlinkStyle (runs : List Run) : List Run :=
  runs.map (fun run =>
    { run with
      Color := if run.Color = "" then "0563C1" else run.Color,
      Underline := true })

/-- A registration call against the relationship registry. -/
inductive RegCall where
  | image (data contentType : String) (width height : Int)
  | hyperlink (target : String)
deriving Repr, DecidableEq

/-- Run a sequence of registration calls, collecting the returned
relationship IDs in call order. -/
def runCalls (d : Document) : List RegCall → List String
  | [] => []
  | .image data ct w h :: rest =>
    let r := d.addImage data ct w h
    r.1 :: runCalls r.2 rest
  | .hyperlink t :: rest =>
    let r := d.addHyperlink t
    r.1 :: runCalls r.2 rest

/-- The ID that shared-counter allocation yields for the i-th overall
registration call (0-based) when the counter starts at `base`. -/
def expectedRegId (base i : Nat) : RegCall → String
  | .image _ _ _ _ => "rId" ++ toString (base + i + 11)
  | .hyperlink _ => "rId" ++ toString (base + i + 1001)

/-- The raw per-level heading configuration (the `styles.headingN`
field), with no fallback of any kind for out-of-range levels. -/
def headingConfigOf (cfg : Config) (level : Int) : StyleConfig :=
  if level = 1 then cfg.Styles.Heading1
  else if level = 2 then cfg.Styles.Heading2
  else if level = 3 then cfg.Styles.Heading3
  else if level = 4 then cfg.Styles.Heading4
  else if level = 5 then cfg.Styles.Heading5
  else if level = 6 then cfg.Styles.Heading6
  else if level = 7 then cfg.Styles.Heading7
  else if level = 8 then cfg.Styles.Heading8
  else if level = 9 then cfg.Styles.Heading9
  else emptyStyleConfig

/-- Modelled from the spec, for comparison with the source behaviour:
"one paragraph-style definition per heading level 1–9, each derived
from a per-level override or falling back to the body style" — the
per-level override with font and size falling back to the body style's
font and size when the override leaves them unset. -/
def specFallbackHeadingStyle (cfg : Config) (level : Int) : StyleConfig :=
  let o := headingConfigOf cfg level
  { o with
    Font := if o.Font = "" then cfg.Styles.Body.Font else o.Font,
    Size := if o.Size = 0 then cfg.Styles.Body.Size else o.Size }

/-- An all-empty configuration. -/
def cfgZero : Config :=
  { Styles :=
    { Body := emptyStyleConfig, Heading1 := emptyStyleConfig,
      Heading2 := emptyStyleConfig, Heading3 := emptyStyleConfig,
      Heading4 := emptyStyleConfig, Heading5 := emptyStyleConfig,
      Heading6 := emptyStyleConfig, Heading7 := emptyStyleConfig,
      Heading8 := emptyStyleConfig, Heading9 := emptyStyleConfig,
      Code := emptyStyleConfig, CodeBlock := emptyStyleConfig } }

/-- A configuration with a configured body style and every heading
override left unset. -/
def cfgC2 : Config :=
  { Styles :=
    { cfgZero.Styles with Body := { emptyStyleConfig with Font := "BodyF", Size := 12 } } }

/-- A paragraph with no explicit alignment. -/
def pC3 : Paragraph := newParagraph ""

/-- A centered cell to which `pC3` has been attached through
`TableCell.AddParagraph`. -/
def cC3 : TableCell :=
  TableCell.addParagraph { newTableCell with Align := "center" } pC3

/-- A one-row, one-cell table around `cC3`. -/
def tC3 : Table :=
  { Rows := [{ Cells := [cC3], IsHeader := false }], ColWidths := [], HasBorders := true }

/-! Section: Helper lemmas -/

theorem join_cons (x : String) (xs : List String) :
    String.join (x :: xs) = x ++ String.join xs := by
  apply String.ext
  simp [String.data_append]

theorem join_split {xs : List String} {x : String} (h : x ∈ xs) :
    ∃ a b, String.join xs = a ++ x ++ b := by
  induction xs with
  | nil => cases h
  | cons hd tl ih =>
    rcases List.mem_cons.mp h with h1 | h2
    · subst h1
      exact ⟨"", String.join tl, by rw [join_cons]; rw [String.empty_append]⟩
    · obtain ⟨a, b, e⟩ := ih h2
      refine ⟨hd ++ a, b, ?_⟩
      rw [join_cons, e]
      simp [String.append_assoc]

theorem escChar_ne_nil (c : Char) : escChar c ≠ [] := by
  unfold escChar
  split_ifs <;> simp

theorem newline_not_mem_escChar (c : Char) : '\n' ∉ escChar c := by
  unfold escChar
  split_ifs with h1 h2 h3 h4 h5 h6 h7 h8 h9
  · decide
  · decide
  · decide
  · decide
  · decide
  · decide
  · decide
  · decide
  · decide
  · simp only [List.mem_singleton]
    intro h
    exact h7 h.symm

theorem lt_not_mem_escChar (c : Char) : '<' ∉ escChar c := by
  unfold escChar
  split_ifs with h1 h2 h3 h4 h5 h6 h7 h8 h9
  · decide
  · decide
  · decide
  · decide
  · decide
  · decide
  · decide
  · decide
  · decide
  · simp only [List.mem_singleton]
    intro h
    exact h4 h.symm

theorem gt_not_mem_escChar (c : Char) : '>' ∉ escChar c := by
  unfold escChar
  split_ifs with h1 h2 h3 h4 h5 h6 h7 h8 h9
  · decide
  · decide
  · decide
  · decide
  · decide
  · decide
  · decide
  · decide
  · decide
  · simp only [List.mem_singleton]
    intro h
    exact h5 h.symm

theorem space_not_mem_escChar (c : Char) (hc : c ≠ ' ') : ∀ x ∈ escChar c, x ≠ ' ' := by
  unfold escChar
  split_ifs with h1 h2 h3 h4 h5 h6 h7 h8 h9
  · decide
  · decide
  · decide
  · decide
  · decide
  · decide
  · decide
  · decide
  · decide
  · intro x hx
    rw [List.mem_singleton] at hx
    subst hx
    exact hc

theorem headSpace_escChar (c : Char) : ((escChar c).head? = some ' ') ↔ c = ' ' := by
  unfold escChar
  split_ifs with h1 h2 h3 h4 h5 h6 h7 h8 h9
  · subst h1; decide
  · subst h2; decide
  · subst h3; decide
  · subst h4; decide
  · subst h5; decide
  · subst h6; decide
  · subst h7; decide
  · subst h8; decide
  · constructor
    · intro h
      exact absurd h (by decide)
    · intro h
      subst h
      revert h9
      decide
  · simp

theorem lastSpace_escChar (c : Char) : ((escChar c).getLast? = some ' ') ↔ c = ' ' := by
  unfold escChar
  split_ifs with h1 h2 h3 h4 h5 h6 h7 h8 h9
  · subst h1; decide
  · subst h2; decide
  · subst h3; decide
  · subst h4; decide
  · subst h5; decide
  · subst h6; decide
  · subst h7; decide
  · subst h8; decide
  · constructor
    · intro h
      exact absurd h (by decide)
    · intro h
      subst h
      revert h9
      decide
  · simp

theorem xmlEscape_nil : xmlEscape [] = [] := rfl

theorem xmlEscape_cons (c : Char) (l : List Char) :
    xmlEscape (c :: l) = escChar c ++ xmlEscape l := by
  simp [xmlEscape]

theorem xmlEscape_eq_nil_iff (l : List Char) : xmlEscape l = [] ↔ l = [] := by
  cases l with
  | nil => simp [xmlEscape]
  | cons c t =>
    rw [xmlEscape_cons]
    simp [escChar_ne_nil]

theorem newline_not_mem_xmlEscape (l : List Char) : '\n' ∉ xmlEscape l := by
  induction l with
  | nil => simp [xmlEscape]
  | cons c t ih =>
    rw [xmlEscape_cons]
    simp only [List.mem_append]
    rintro (h | h)
    · exact newline_not_mem_escChar c h
    · exact ih h

theorem lt_not_mem_xmlEscape (l : List Char) : '<' ∉ xmlEscape l := by
  induction l with
  | nil => simp [xmlEscape]
  | cons c t ih =>
    rw [xmlEscape_cons]
    simp only [List.mem_append]
    rintro (h | h)
    · exact lt_not_mem_escChar c h
    · exact ih h

theorem gt_not_mem_xmlEscape (l : List Char) : '>' ∉ xmlEscape l := by
  induction l with
  | nil => simp [xmlEscape]
  | cons c t ih =>
    rw [xmlEscape_cons]
    simp only [List.mem_append]
    rintro (h | h)
    · exact gt_not_mem_escChar c h
    · exact ih h

theorem splitNL_of_no_newline (l : List Char) (h : '\n' ∉ l) : splitNL l = [l] := by
  induction l with
  | nil => rfl
  | cons c t ih =>
    have hc : ¬ c = '\n' := by
      intro hc
      exact h (by simp [hc])
    have ht : '\n' ∉ t := fun hm => h (List.mem_cons_of_mem c hm)
    unfold splitNL
    rw [if_neg hc, ih ht]

theorem head?_xmlEscape_space (l : List Char) :
    ((xmlEscape l).head? = some ' ') ↔ (l.head? = some ' ') := by
  cases l with
  | nil => simp [xmlEscape]
  | cons c t =>
    rw [xmlEscape_cons]
    obtain ⟨a, as, he⟩ := List.exists_cons_of_ne_nil (escChar_ne_nil c)
    have hc := headSpace_escChar c
    rw [he] at hc ⊢
    simp only [List.cons_append, List.head?_cons, Option.some.injEq] at hc ⊢
    rw [hc]

theorem getLast?_xmlEscape_space (l : List Char) :
    ((xmlEscape l).getLast? = some ' ') ↔ (l.getLast? = some ' ') := by
  induction l with
  | nil => simp [xmlEscape]
  | cons c t ih =>
    rw [xmlEscape_cons]
    by_cases ht : t = []
    · subst ht
      rw [xmlEscape_nil, List.append_nil]
      rw [lastSpace_escChar]
      simp
    · have h2 : xmlEscape t ≠ [] := by
        simpa [xmlEscape_eq_nil_iff] using ht
      rw [List.getLast?_append_of_ne_nil _ h2, ih]
      obtain ⟨x, xs, hx⟩ := List.exists_cons_of_ne_nil ht
      subst hx
      rw [List.getLast?_cons_cons]

theorem hasDoubleSpace_append_nospace (e rest : List Char) (he : ∀ x ∈ e, x ≠ ' ') :
    hasDoubleSpace (e ++ rest) = hasDoubleSpace rest := by
  induction e with
  | nil => rfl
  | cons c cs ih =>
    have hc : ¬ c = ' ' := he c (by simp)
    simp only [List.cons_append, hasDoubleSpace, List.append_eq]
    rw [ih (fun x hx => he x (List.mem_cons_of_mem c hx))]
    rw [decide_eq_false hc]
    simp

theorem hasDoubleSpace_xmlEscape (l : List Char) :
    hasDoubleSpace (xmlEscape l) = hasDoubleSpace l := by
  induction l with
  | nil => rfl
  | cons c t ih =>
    rw [xmlEscape_cons]
    by_cases hc : c = ' '
    · subst hc
      have hesc : escChar ' ' = [' '] := by decide
      rw [hesc]
      simp only [List.singleton_append, hasDoubleSpace, List.append_eq, List.nil_append]
      rw [ih, decide_eq_decide.mpr (head?_xmlEscape_space t)]
    · rw [hasDoubleSpace_append_nospace _ _ (space_not_mem_escChar c hc), ih]
      simp only [hasDoubleSpace]
      rw [decide_eq_false hc]
      simp

theorem spacePreserveCond_xmlEscape (l : List Char) :
    spacePreserveCond (xmlEscape l) = spacePreserveCond l := by
  unfold spacePreserveCond
  rw [hasDoubleSpace_xmlEscape,
      decide_eq_decide.mpr (head?_xmlEscape_space l),
      decide_eq_decide.mpr (getLast?_xmlEscape_space l)]

/-! Section: C1: relationship-ID allocation -/

theorem expectedRegId_shift (b j : Nat) (c : RegCall) :
    expectedRegId (b + 1) j c = expectedRegId b (j + 1) c := by
  cases c with
  | image a b2 e f =>
    simp only [expectedRegId]
    have harith : b + 1 + j + 11 = b + (j + 1) + 11 := by omega
    rw [harith]
  | hyperlink t =>
    simp only [expectedRegId]
    have harith : b + 1 + j + 1001 = b + (j + 1) + 1001 := by omega
    rw [harith]

theorem runCalls_getElem (d : Document) (calls : List RegCall) (i : Nat) (c : RegCall)
    (h : calls[i]? = some c) :
    (runCalls d calls)[i]? = some (expectedRegId d.imageCount i c) := by
  induction calls generalizing d i with
  | nil => simp at h
  | cons hd tl ih =>
    cases i with
    | zero =>
      simp only [List.getElem?_cons_zero, Option.some.injEq] at h
      subst h
      cases hd with
      | image a b e f =>
        simp only [runCalls, Document.addImage, List.getElem?_cons_zero, Option.some.injEq,
          expectedRegId]
      | hyperlink t =>
        simp only [runCalls, Document.addHyperlink, List.getElem?_cons_zero, Option.some.injEq,
          expectedRegId]
    | succ j =>
      simp only [List.getElem?_cons_succ] at h
      cases hd with
      | image a b e f =>
        simp only [runCalls, List.getElem?_cons_succ]
        have hr := ih (d.addImage a b e f).2 j h
        have hcount : (d.addImage a b e f).2.imageCount = d.imageCount + 1 := rfl
        rw [hcount] at hr
        rw [hr, expectedRegId_shift]
      | hyperlink t =>
        simp only [runCalls, List.getElem?_cons_succ]
        have hr := ih (d.addHyperlink t).2 j h
        have hcount : (d.addHyperlink t).2.imageCount = d.imageCount + 1 := rfl
        rw [hcount] at hr
        rw [hr, expectedRegId_shift]

/-- Claim C1 (corrected): `AddImage` and `AddHyperlink` draw from one
shared counter, so the ID returned by the i-th registration call
overall (0-based, counting calls of both kinds) is `rId(i+11)` when
that call is an `AddImage` and `rId(i+1001)` when it is an
`AddHyperlink`; the per-kind sequences are consecutive only when calls
of the two kinds are not interleaved. -/
theorem C1_shared_counter_ids (cfg : Config) (calls : List RegCall) (i : Nat) (c : RegCall)
    (h : calls[i]? = some c) :
    (runCalls (newDocument cfg) calls)[i]? = some (expectedRegId 0 i c) :=
  runCalls_getElem (newDocument cfg) calls i c h

theorem C1_shared_counter_ids_witness :
    ([RegCall.image "d" "image/png" 1 1, RegCall.hyperlink "t"][1]? = some (RegCall.hyperlink "t"))
    ∧ (runCalls (newDocument cfgZero) [RegCall.image "d" "image/png" 1 1, RegCall.hyperlink "t"])[1]?
        = some (expectedRegId 0 1 (RegCall.hyperlink "t"))
    ∧ expectedRegId 0 1 (RegCall.hyperlink "t") = "rId1002" :=
  ⟨rfl, C1_shared_counter_ids cfgZero [RegCall.image "d" "image/png" 1 1, RegCall.hyperlink "t"]
    1 (RegCall.hyperlink "t") rfl, rfl⟩

/-- Claim C1, as stated, is false: with the call sequence
image–hyperlink–image the first `AddHyperlink` returns `rId1002` (not
`rId1001`) and the second `AddImage` returns `rId13` (not `rId12`),
because both operations increment the same counter. -/
theorem C1_counterexample :
    runCalls (newDocument cfgZero)
        [RegCall.image "d" "image/png" 1 1, RegCall.hyperlink "u", RegCall.image "e" "image/png" 1 1]
      = ["rId11", "rId1002", "rId13"]
    ∧ ("rId1002" : String) ≠ "rId1001" ∧ ("rId13" : String) ≠ "rId12" := by
  refine ⟨rfl, by decide, by decide⟩

/-! Section: C7: hyperlink run finalization -/

/-- Claim C7 (confirmed): after the one-time finalization pass over a
hyperlink's populated children, every child run that had no explicit
color carries the fixed default link color `0563C1` and has underline
enabled. -/
theorem C7_hyperlink_default_style (runs : List Run) (i : Nat) (r : Run)
    (h : runs[i]? = some r) (hc : r.Color = "") :
    (applyHyperlinkStyle runs)[i]? =
      some { r with Color := "0563C1", Underline := true } := by
  simp [applyHyperlinkStyle, List.getElem?_map, h, hc]

theorem C7_hyperlink_default_style_witness :
    ([{ emptyRun with Text := "x" }][0]? = some { emptyRun with Text := "x" })
    ∧ ({ emptyRun with Text := "x" } : Run).Color = ""
    ∧ (applyHyperlinkStyle [{ emptyRun with Text := "x" }])[0]?
        = some { emptyRun with Text := "x", Color := "0563C1", Underline := true } :=
  ⟨rfl, rfl,
    C7_hyperlink_default_style [{ emptyRun with Text := "x" }] 0 { emptyRun with Text := "x" } rfl rfl⟩

/-! Section: C9: unrecognized image content-type -/

/-- Claim C9 (confirmed): registering an image whose content-type is
not one of the recognized types always succeeds — `AddImage` has no
failure path; it returns the next relationship ID and stores the image
under a filename with the default extension `.png`. -/
theorem C9_default_extension (d : Document) (data ct : String) (w h : Int)
    (h1 : ct ≠ "image/jpeg") (h2 : ct ≠ "image/gif") (h3 : ct ≠ "image/svg+xml") :
    d.addImage data ct w h =
      ("rId" ++ toString (d.imageCount + 11),
       { d with
         imageCount := d.imageCount + 1,
         images := d.images ++ [("image" ++ toString (d.imageCount + 1) ++ ".png",
           { Data := data, ContentType := ct, Width := w, Height := h })],
         contentRels := d.contentRels ++ [{
           ID := "rId" ++ toString (d.imageCount + 11),
           Typ := "http://schemas.openxmlformats.org/officeDocument/2006/relationships/image",
           Target := "media/" ++ ("image" ++ toString (d.imageCount + 1)) ++ ".png",
           TargetMode := "" }] }) := by
  have hext : imageExt ct = ".png" := by
    simp [imageExt, h1, h2, h3]
  have harith : d.imageCount + 1 + 10 = d.imageCount + 11 := by omega
  simp [Document.addImage, hext, harith]

theorem C9_default_extension_witness :
    ("image/webp" ≠ "image/jpeg") ∧ ("image/webp" ≠ "image/gif")
    ∧ ("image/webp" ≠ "image/svg+xml")
    ∧ (newDocument cfgZero).addImage "DATA" "image/webp" 3 4 =
      ("rId" ++ toString ((newDocument cfgZero).imageCount + 11),
       { newDocument cfgZero with
         imageCount := (newDocument cfgZero).imageCount + 1,
         images := (newDocument cfgZero).images
           ++ [("image" ++ toString ((newDocument cfgZero).imageCount + 1) ++ ".png",
             { Data := "DATA", ContentType := "image/webp", Width := 3, Height := 4 })],
         contentRels := (newDocument cfgZero).contentRels ++ [{
           ID := "rId" ++ toString ((newDocument cfgZero).imageCount + 11),
           Typ := "http://schemas.openxmlformats.org/officeDocument/2006/relationships/image",
           Target := "media/" ++ ("image" ++ toString ((newDocument cfgZero).imageCount + 1)) ++ ".png",
           TargetMode := "" }] }) :=
  ⟨by decide, by decide, by decide,
    C9_default_extension (newDocument cfgZero) "DATA" "image/webp" 3 4
      (by decide) (by decide) (by decide)⟩

/-! Section: C8: empty table cell -/

/-- Claim C8 (confirmed): a table cell with zero attached paragraphs
renders as its cell-properties block followed by exactly one empty
paragraph placeholder, and rendering leaves the cell unchanged. -/
theorem C8_empty_cell_placeholder (c : TableCell) (h : c.Paragraphs = []) :
    cellToXML c =
      (cellPropsXML c ++ "\n                    <w:p/>" ++ "\n                </w:tc>", c) := by
  simp [cellToXML, h]

theorem C8_empty_cell_placeholder_witness :
    newTableCell.Paragraphs = []
    ∧ cellToXML newTableCell =
      (cellPropsXML newTableCell ++ "\n                    <w:p/>" ++ "\n                </w:tc>",
       newTableCell) :=
  ⟨rfl, C8_empty_cell_placeholder newTableCell rfl⟩

/-! Section: C5, C6, C10: run text rendering -/

theorem runContentXML_text (r : Run) (him : r.IsImage = false) (hne : r.Text ≠ "") :
    runContentXML r = renderTextLine (xmlEscape r.Text.data) := by
  unfold runContentXML
  rw [him]
  simp only [Bool.false_eq_true, if_false, if_pos hne]
  rw [splitNL_of_no_newline _ (newline_not_mem_xmlEscape _)]
  simp only [renderLines, List.map_nil]
  rw [show String.join [] = "" from rfl, String.append_empty]

/-- Claim C5 (confirmed): a non-image run whose content does not start
with a space, does not end with a space and has no two consecutive
spaces renders its text without the preserve-whitespace marker (or, if
the text is empty, renders no text element at all); a run violating
that condition renders its single text element with the marker.  The
condition is stated on the raw run text; the code checks it on the
escaped text, and the two agree. -/
theorem C5_preserve_marker (r : Run) (him : r.IsImage = false) :
    (spacePreserveCond r.Text.data = false →
      runContentXML r = if r.Text = "" then ""
        else "\n                <w:t>" ++ String.mk (xmlEscape r.Text.data) ++ "</w:t>")
    ∧ (spacePreserveCond r.Text.data = true →
      runContentXML r =
        "\n                <w:t xml:space=\"preserve\">"
        ++ String.mk (xmlEscape r.Text.data) ++ "</w:t>") := by
  constructor
  · intro hcond
    by_cases ht : r.Text = ""
    · simp [runContentXML, him, ht]
    · rw [if_neg ht, runContentXML_text r him ht]
      unfold renderTextLine
      rw [spacePreserveCond_xmlEscape, hcond]
      simp
  · intro hcond
    have ht : r.Text ≠ "" := by
      intro ht
      rw [ht] at hcond
      simp [spacePreserveCond, hasDoubleSpace] at hcond
    rw [runContentXML_text r him ht]
    unfold renderTextLine
    rw [spacePreserveCond_xmlEscape, hcond]
    simp

theorem C5_preserve_marker_witness :
    (({ emptyRun with Text := "a b" } : Run).IsImage = false)
    ∧ spacePreserveCond ("a b" : String).data = false
    ∧ runContentXML { emptyRun with Text := "a b" } =
        "\n                <w:t>" ++ String.mk (xmlEscape ("a b" : String).data) ++ "</w:t>"
    ∧ (({ emptyRun with Text := " a" } : Run).IsImage = false)
    ∧ spacePreserveCond (" a" : String).data = true
    ∧ runContentXML { emptyRun with Text := " a" } =
        "\n                <w:t xml:space=\"preserve\">"
        ++ String.mk (xmlEscape (" a" : String).data) ++ "</w:t>" := by
  refine ⟨rfl, by decide, ?_, rfl, by decide, ?_⟩
  · have h := (C5_preserve_marker { emptyRun with Text := "a b" } rfl).1 (by decide)
    simpa using h
  · exact (C5_preserve_marker { emptyRun with Text := " a" } rfl).2 (by decide)

/-- Claim C6 (code bug): the source intends to split run text on
newlines and join the segments with explicit `<w:br/>` markers, but it
XML-escapes the text first and `xml.EscapeText` turns every `\n` into
`&#xA;`, so the subsequent `strings.Split(escapedText, "\n")` never
splits: a run containing exactly one newline renders as ONE text
segment containing `&#xA;` and no line-break marker, not as two
segments separated by one `<w:br/>`. -/
theorem C6_newline_run_eval :
    runToXML { emptyRun with Text := "a\nb" } =
      "\n            <w:r>\n                <w:t>a&#xA;b</w:t>\n            </w:r>"
    ∧ (splitNL (xmlEscape ("a\nb" : String).data)).length = 1 := by
  constructor
  · rfl
  · rfl

/-- Claim C10 (confirmed): for every non-image run with nonempty text,
the character data inside the emitted text element is exactly the
XML-escaped form of the whole run text (the escaping happens before
the newline split, which is the identity on escaped text), and the
escape map turns `&`, `<`, `>` into entities and never lets `<` or `>`
through, so input text cannot alter the markup structure. -/
theorem C10_escaped_character_data (r : Run) (him : r.IsImage = false) (hne : r.Text ≠ "") :
    (∃ attr, (attr = "" ∨ attr = " xml:space=\"preserve\"") ∧
      runContentXML r =
        "\n                <w:t" ++ attr ++ ">" ++ String.mk (xmlEscape r.Text.data) ++ "</w:t>")
    ∧ splitNL (xmlEscape r.Text.data) = [xmlEscape r.Text.data]
    ∧ (∀ l : List Char, '<' ∉ xmlEscape l ∧ '>' ∉ xmlEscape l)
    ∧ escChar '&' = "&amp;".data ∧ escChar '<' = "&lt;".data ∧ escChar '>' = "&gt;".data := by
  refine ⟨?_, splitNL_of_no_newline _ (newline_not_mem_xmlEscape _),
    fun l => ⟨lt_not_mem_xmlEscape l, gt_not_mem_xmlEscape l⟩, by decide, by decide, by decide⟩
  rw [runContentXML_text r him hne]
  unfold renderTextLine
  by_cases hcond : spacePreserveCond (xmlEscape r.Text.data) = true
  · refine ⟨" xml:space=\"preserve\"", Or.inr rfl, ?_⟩
    rw [if_pos hcond]
    rfl
  · refine ⟨"", Or.inl rfl, ?_⟩
    rw [if_neg hcond]
    rfl

theorem C10_escaped_character_data_witness :
    (({ emptyRun with Text := "a<b&c>d" } : Run).IsImage = false)
    ∧ (("a<b&c>d" : String) ≠ "")
    ∧ ∃ attr, (attr = "" ∨ attr = " xml:space=\"preserve\"") ∧
        runContentXML { emptyRun with Text := "a<b&c>d" } =
          "\n                <w:t" ++ attr ++ ">"
          ++ String.mk (xmlEscape ("a<b&c>d" : String).data) ++ "</w:t>" :=
  ⟨rfl, by decide,
    (C10_escaped_character_data { emptyRun with Text := "a<b&c>d" } rfl (by decide)).1⟩

/-! Section: C3: cell alignment defaulting -/

theorem renderCellParas_snd (a : String) (ps : List Paragraph) :
    (renderCellParas a ps).2 = ps.map (resolveCellAlign a) := by
  induction ps with
  | nil => rfl
  | cons p ps ih => simp [renderCellParas, ih]

theorem renderCellParas_fst (a : String) (ps : List Paragraph) :
    (renderCellParas a ps).1 =
      String.join (ps.map (fun p => paragraphToXML (resolveCellAlign a p))) := by
  induction ps with
  | nil => rfl
  | cons p ps ih =>
    simp only [renderCellParas, List.map_cons]
    rw [join_cons, ih]

theorem cellToXML_snd (c : TableCell) :
    (cellToXML c).2 = { c with Paragraphs := c.Paragraphs.map (resolveCellAlign c.Align) } := by
  obtain ⟨ps, w, al, val, sh⟩ := c
  by_cases h : ps = []
  · subst h
    rfl
  · simp [cellToXML, h, renderCellParas_snd]

theorem renderCellList_snd (cs : List TableCell) :
    (renderCellList cs).2 =
      cs.map (fun c => { c with Paragraphs := c.Paragraphs.map (resolveCellAlign c.Align) }) := by
  induction cs with
  | nil => rfl
  | cons c cs ih => simp [renderCellList, ih, cellToXML_snd]

theorem renderRowList_snd (rs : List TableRow) :
    (renderRowList rs).2 =
      rs.map (fun row =>
        { row with Cells := row.Cells.map (fun c =>
            { c with Paragraphs := c.Paragraphs.map (resolveCellAlign c.Align) }) }) := by
  induction rs with
  | nil => rfl
  | cons r rs ih => simp [renderRowList, rowToXML, ih, renderCellList_snd]

/-- Claim C3 (corrected): a cell's horizontal alignment is indeed
applied to a child paragraph only when that paragraph has no explicit
alignment of its own (paragraph override wins) — but the defaulting is
resolved DURING RENDERING, not at attach time: `TableCell.AddParagraph`
stores the paragraph unchanged, and `Table.ToXML` mutates each child
paragraph's alignment field before rendering it. -/
theorem C3_render_time_defaulting (t : Table) :
    (tableToXML t).2 =
      { t with Rows := t.Rows.map (fun row =>
          { row with Cells := row.Cells.map (fun c =>
              { c with Paragraphs := c.Paragraphs.map (resolveCellAlign c.Align) }) }) }
    ∧ (∀ (c : TableCell) (p : Paragraph),
        c.addParagraph p = { c with Paragraphs := c.Paragraphs ++ [p] })
    ∧ (∀ c : TableCell, c.Paragraphs ≠ [] →
        (cellToXML c).1 = cellPropsXML c
          ++ String.join (c.Paragraphs.map (fun p => paragraphToXML (resolveCellAlign c.Align p)))
          ++ "\n                </w:tc>")
    ∧ (∀ (a : String) (p : Paragraph), a ≠ "" → p.Align = "" →
        resolveCellAlign a p = { p with Align := a })
    ∧ (∀ (a : String) (p : Paragraph), p.Align ≠ "" → resolveCellAlign a p = p) := by
  refine ⟨?_, fun c p => rfl, ?_, ?_, ?_⟩
  · simp [tableToXML, renderRowList_snd]
  · intro c h
    simp [cellToXML, h, renderCellParas_fst]
  · intro a p h1 h2
    simp [resolveCellAlign, h1, h2]
  · intro a p h
    simp [resolveCellAlign, h]

theorem C3_render_time_defaulting_witness :
    resolveCellAlign "center" pC3 = { pC3 with Align := "center" }
    ∧ (cellToXML cC3).1 = cellPropsXML cC3
        ++ String.join (cC3.Paragraphs.map (fun p => paragraphToXML (resolveCellAlign cC3.Align p)))
        ++ "\n                </w:tc>" :=
  ⟨(C3_render_time_defaulting tC3).2.2.2.1 "center" pC3 (by decide) rfl,
   (C3_render_time_defaulting tC3).2.2.1 cC3 (by decide)⟩

/-- Claim C3, as stated, is false: rendering a one-cell table whose
cell is centered and holds one alignment-free paragraph changes that
paragraph's alignment field from `""` to `"center"`, so the defaulting
happens at render time and mutates the paragraph (attaching it had
left the field empty). -/
theorem C3_counterexample :
    ((tableToXML tC3).2.Rows.map (fun r => r.Cells.map (fun c => c.Paragraphs.map Paragraph.Align)))
      = [[["center"]]]
    ∧ (tC3.Rows.map (fun r => r.Cells.map (fun c => c.Paragraphs.map Paragraph.Align)))
      = [[[""]]]
    ∧ ("center" : String) ≠ "" := by
  refine ⟨rfl, rfl, by decide⟩

/-! Section: C4: archive entry order -/

/-- Claim C4 (confirmed): `Save` writes, in this fixed order, the
content-type manifest, the root relationship part, the body
relationship part (the style-sheet relationship followed by every
registered image/hyperlink relationship in registration order), the
style-sheet part, and the body part (every appended element rendered
in insertion order between the fixed head and the fixed page-geometry
trailer), followed by one media entry per registered image; appending
an element preserves insertion order. -/
theorem C4_save_order (d : Document) :
    (d.save.map Prod.fst =
      ["[Content_Types].xml", "_rels/.rels", "word/_rels/document.xml.rels",
       "word/styles.xml", "word/document.xml"]
      ++ d.images.map (fun nd => "word/media/" ++ nd.1))
    ∧ d.save =
      [("[Content_Types].xml", contentTypesXML),
       ("_rels/.rels", rootRelsXML),
       ("word/_rels/document.xml.rels",
         documentRelsHead ++ String.join (d.contentRels.map relationshipXML)
         ++ "\n</Relationships>"),
       ("word/styles.xml", generateStyles d.config),
       ("word/document.xml",
         documentBodyHead ++ String.join (d.elements.map elementToXML) ++ documentBodyTrailer)]
      ++ d.images.map (fun nd => ("word/media/" ++ nd.1, nd.2.Data))
    ∧ (∀ e : Element, (d.addParagraph e).elements = d.elements ++ [e]) := by
  refine ⟨?_, rfl, fun e => rfl⟩
  simp [Document.save, List.map_map]

/-! Section: C2: heading styles -/

theorem generateStyles_decomp (cfg : Config) (l : Int) (h : l ∈ headingLevels) :
    ∃ pre post,
      generateStyles cfg = pre ++ headingStyleXML l (cfg.getHeadingStyle l) ++ post := by
  obtain ⟨a, b, e⟩ :=
    join_split (List.mem_map_of_mem (fun l2 => headingStyleXML l2 (cfg.getHeadingStyle l2)) h)
  refine ⟨stylesHeadXML cfg ++ a, b ++ stylesTailXML cfg, ?_⟩
  unfold generateStyles
  rw [e]
  simp [String.append_assoc]

theorem headingStyleXML_outline_decomp (l : Int) (s : StyleConfig) :
    ∃ a b, headingStyleXML l s = a ++ headingOutlineXML l ++ b :=
  ⟨headingStyleHeadXML l,
   "\n        </w:pPr>\n        <w:rPr>\n            "
   ++ headingFontsXML s ++ "\n            " ++ headingSzXML s
   ++ "\n            <w:szCs w:val=\"" ++ toString (sizeHalf s.Size) ++ "\"/>"
   ++ headingBoldXML s
   ++ "\n        </w:rPr>\n    </w:style>",
   by simp [headingStyleXML, String.append_assoc]⟩

theorem headingStyleXML_fonts_decomp (l : Int) (s : StyleConfig) :
    ∃ a b, headingStyleXML l s = a ++ headingFontsXML s ++ b :=
  ⟨headingStyleHeadXML l ++ headingOutlineXML l
   ++ "\n        </w:pPr>\n        <w:rPr>\n            ",
   "\n            " ++ headingSzXML s
   ++ "\n            <w:szCs w:val=\"" ++ toString (sizeHalf s.Size) ++ "\"/>"
   ++ headingBoldXML s
   ++ "\n        </w:rPr>\n    </w:style>",
   by simp [headingStyleXML, String.append_assoc]⟩

theorem headingStyleXML_sz_decomp (l : Int) (s : StyleConfig) :
    ∃ a b, headingStyleXML l s = a ++ headingSzXML s ++ b :=
  ⟨headingStyleHeadXML l ++ headingOutlineXML l
   ++ "\n        </w:pPr>\n        <w:rPr>\n            "
   ++ headingFontsXML s ++ "\n            ",
   "\n            <w:szCs w:val=\"" ++ toString (sizeHalf s.Size) ++ "\"/>"
   ++ headingBoldXML s
   ++ "\n        </w:rPr>\n    </w:style>",
   by simp [headingStyleXML, String.append_assoc]⟩

theorem headingStyleXML_bold_decomp (l : Int) (s : StyleConfig) (hb : s.Bold = true) :
    ∃ a b, headingStyleXML l s = a ++ "\n            <w:b/>\n            <w:bCs/>" ++ b :=
  ⟨headingStyleHeadXML l ++ headingOutlineXML l
   ++ "\n        </w:pPr>\n        <w:rPr>\n            "
   ++ headingFontsXML s ++ "\n            " ++ headingSzXML s
   ++ "\n            <w:szCs w:val=\"" ++ toString (sizeHalf s.Size) ++ "\"/>",
   "\n        </w:rPr>\n    </w:style>",
   by simp [headingStyleXML, headingBoldXML, hb, String.append_assoc]⟩

/-- Claim C2 (corrected): for every heading level 1–9, the generated
style part contains one paragraph-style definition for that level
whose outline-level index is `level - 1`, whose bold markers follow
the per-level bold flag, and whose font and size come from the
PER-LEVEL configuration VERBATIM — `GetHeadingStyle` performs no
fallback to the body style for levels 1–9 (its body-style default
branch is reachable only for levels outside 1–9), so an unset override
yields an empty font and size 0, not the body font and size. -/
theorem C2_heading_styles (cfg : Config) (l : Int) (h1 : 1 ≤ l) (h2 : l ≤ 9) :
    (cfg.getHeadingStyle l = headingConfigOf cfg l)
    ∧ (∃ pre post,
        generateStyles cfg = pre ++ headingStyleXML l (cfg.getHeadingStyle l) ++ post)
    ∧ (∃ a b, headingStyleXML l (cfg.getHeadingStyle l) = a ++ headingOutlineXML l ++ b)
    ∧ headingOutlineXML l = "<w:outlineLvl w:val=\"" ++ toString (l - 1) ++ "\"/>"
    ∧ (∃ a b, headingStyleXML l (cfg.getHeadingStyle l)
        = a ++ headingFontsXML (headingConfigOf cfg l) ++ b)
    ∧ headingFontsXML (headingConfigOf cfg l)
        = "<w:rFonts w:ascii=\"" ++ (headingConfigOf cfg l).Font
          ++ "\" w:eastAsia=\"" ++ (headingConfigOf cfg l).Font
          ++ "\" w:hAnsi=\"" ++ (headingConfigOf cfg l).Font ++ "\"/>"
    ∧ (∃ a b, headingStyleXML l (cfg.getHeadingStyle l)
        = a ++ headingSzXML (headingConfigOf cfg l) ++ b)
    ∧ headingSzXML (headingConfigOf cfg l)
        = "<w:sz w:val=\"" ++ toString (sizeHalf (headingConfigOf cfg l).Size) ++ "\"/>"
    ∧ ((headingConfigOf cfg l).Bold = true →
        ∃ a b, headingStyleXML l (cfg.getHeadingStyle l)
          = a ++ "\n            <w:b/>\n            <w:bCs/>" ++ b) := by
  have hsel : cfg.getHeadingStyle l = headingConfigOf cfg l := by
    interval_cases l <;> rfl
  have hmem : l ∈ headingLevels := by
    interval_cases l <;> decide
  refine ⟨hsel, generateStyles_decomp cfg l hmem, headingStyleXML_outline_decomp l _, rfl,
    ?_, rfl, ?_, rfl, ?_⟩
  · rw [hsel]
    exact headingStyleXML_fonts_decomp l _
  · rw [hsel]
    exact headingStyleXML_sz_decomp l _
  · intro hb
    rw [hsel]
    exact headingStyleXML_bold_decomp l _ hb

theorem C2_heading_styles_witness :
    (cfgZero.getHeadingStyle 3 = headingConfigOf cfgZero 3)
    ∧ ∃ pre post,
        generateStyles cfgZero = pre ++ headingStyleXML 3 (cfgZero.getHeadingStyle 3) ++ post :=
  ⟨(C2_heading_styles cfgZero 3 (by decide) (by decide)).1,
   (C2_heading_styles cfgZero 3 (by decide) (by decide)).2.1⟩

set_option maxRecDepth 40000 in
/-- Claim C2, as stated, is false on the fallback half: in a
configuration whose body style sets font `BodyF` and size 12 while
every per-level heading override is unset, the level-1 definition the
generator emits carries font `""` and size `0` — it differs from the
definition the claimed body-style fallback would produce, and the
whole emitted block list differs from the claimed one. -/
theorem C2_counterexample :
    (cfgC2.getHeadingStyle 1).Font = ""
    ∧ (cfgC2.getHeadingStyle 1).Size = 0
    ∧ (specFallbackHeadingStyle cfgC2 1).Font = "BodyF"
    ∧ (specFallbackHeadingStyle cfgC2 1).Size = 12
    ∧ headingStyleXML 1 (cfgC2.getHeadingStyle 1)
        ≠ headingStyleXML 1 (specFallbackHeadingStyle cfgC2 1)
    ∧ headingBlocks cfgC2
        ≠ headingLevels.map (fun l => headingStyleXML l (specFallbackHeadingStyle cfgC2 l)) := by
  refine ⟨rfl, rfl, rfl, rfl, by decide, by decide⟩

end MdToWord
